import Mathlib

/-!
Shallow embedding of the secure file sharing core of `file_tracker.py`
(classes `PDFEncryption`, `SecureShareDialog.share_file`,
`FileTrackerWindow.load_file_access_records`).

Bytes are modelled as natural numbers (real bytes are `< 256`, but none of the
properties below need the bound).  External effects of the Python code
(filesystem reads, randomness, the Cloudinary upload, the geolocation HTTP
call, the Firestore write, timestamps) are inputs of the model, supplied
through an environment record; the control flow acting on them is translated
from the source.
-/

namespace FileTracker

abbrev Byte := Nat
abbrev Bytes := List Nat

/-- A raised Python exception: the runtime class name and the message.
`PDFEncryption.decrypt_pdf` wraps every failure as the base class
`Exception` with a formatted message. -/
structure PyError where
  typeName : String
  message : String
deriving DecidableEq, Repr

/-- Modelled from the spec: the AES-EAX keystream byte at position `i` under
`key` and `nonce`.  The AEAD internals live in the third-party pycryptodome
library, not in this repository, so the cipher is modelled as an idealized
stream cipher, which is the shape the spec's AEAD contract requires;
the concrete mixing constants are arbitrary but executable. -/
def ksByte (key nonce : Bytes) (i : Nat) : Byte :=
  (key.sum * 31 + nonce.sum * 17 + i * 7 + 13) % 256

/-- XOR a byte list against the keystream starting at stream position `i`. -/
def xorKS (key nonce : Bytes) : Nat → Bytes → Bytes
  | _, [] => []
  | i, b :: bs => (b ^^^ ksByte key nonce i) :: xorKS key nonce (i + 1) bs

/-- Modelled from the spec: the 16-byte EAX authentication tag over the
ciphertext under `key` and `nonce` (a concrete executable MAC standing in
for the pycryptodome implementation). -/
def mac16 (key nonce ct : Bytes) : Bytes :=
  let h := ct.foldl (fun a b => (a * 131 + b + 1) % 4294967291)
    (key.sum * 7 + nonce.sum * 3 + ct.length + 11)
  (List.range 16).map (fun i => (h / 2 ^ (8 * (i % 4)) + i * 59) % 256)

/-- The value returned by `PDFEncryption.encrypt_pdf` on success:
nonce, ciphertext, tag and the freshly generated key. -/
structure EncryptionResult where
  nonce : Bytes
  ciphertext : Bytes
  tag : Bytes
  key : Bytes
deriving DecidableEq, Repr

/-- The cipher step of `PDFEncryption.encrypt_pdf` (file_tracker.py lines
35-43): `cipher = AES.new(key, AES.MODE_EAX)` followed by
`encrypt_and_digest(pdf_data)`.  The random draws (`key` from
`get_random_bytes(16)` and the cipher's fresh `nonce`) are inputs. -/
def encryptCore (pdfData key nonce : Bytes) : EncryptionResult :=
  let ciphertext := xorKS key nonce 0 pdfData
  { nonce := nonce
    ciphertext := ciphertext
    tag := mac16 key nonce ciphertext
    key := key }

/-- `PDFEncryption.encrypt_pdf` (lines 29-45).  The file read is an input:
on a read failure the wrapped OSError message is re-raised as
`Exception("Encryption failed: ...")`. -/
def encrypt_pdf (readResult : Except String Bytes) (key nonce : Bytes) :
    Except String EncryptionResult :=
  match readResult with
  | .error e => .error ("Encryption failed: " ++ e)
  | .ok pdfData => .ok (encryptCore pdfData key nonce)

/-- The single-buffer serialization `nonce + tag + ciphertext` built by
`SecureShareDialog.share_file` at line 222. -/
def serializeEncrypted (r : EncryptionResult) : Bytes :=
  r.nonce ++ r.tag ++ r.ciphertext

/-- `PDFEncryption.decrypt_pdf` (lines 47-61): slices the buffer as
`nonce = data[:16]`, `tag = data[16:32]`, `ciphertext = data[32:]`, then
`AES.new(key, AES.MODE_EAX, nonce).decrypt_and_verify(ciphertext, tag)`.
Every failure is re-raised as the base class
`Exception("Decryption failed: ...")`. -/
def decrypt_pdf (encryptedData : Bytes) (key : Bytes) : Except PyError Bytes :=
  let nonce := encryptedData.take 16
  let tag := (encryptedData.drop 16).take 16
  let ciphertext := encryptedData.drop 32
  if key.length = 16 then
    if mac16 key nonce ciphertext = tag then
      .ok (xorKS key nonce 0 ciphertext)
    else
      .error ⟨"Exception", "Decryption failed: MAC check failed"⟩
  else
    .error ⟨"Exception",
      "Decryption failed: Incorrect AES key length (" ++
        toString key.length ++ " bytes)"⟩

lemma mac16_length (key nonce ct : Bytes) : (mac16 key nonce ct).length = 16 := by
  simp [mac16]

lemma xorKS_length (key nonce : Bytes) :
    ∀ (i : Nat) (P : Bytes), (xorKS key nonce i P).length = P.length := by
  intro i P
  induction P generalizing i with
  | nil => simp [xorKS]
  | cons b bs ih => simp [xorKS, ih]

lemma xorKS_xorKS (key nonce : Bytes) :
    ∀ (i : Nat) (P : Bytes), xorKS key nonce i (xorKS key nonce i P) = P := by
  intro i P
  induction P generalizing i with
  | nil => simp [xorKS]
  | cons b bs ih =>
    simp [xorKS, ih, Nat.xor_assoc]

lemma take_len_append (a b : Bytes) (n : Nat) (h : a.length = n) :
    (a ++ b).take n = a := by
  subst h; exact List.take_left a b

lemma drop_len_append (a b : Bytes) (n : Nat) (h : a.length = n) :
    (a ++ b).drop n = b := by
  subst h; exact List.drop_left a b

/-- Slicing the serialized buffer recovers the three components. -/
lemma serializeEncrypted_slices (r : EncryptionResult)
    (hn : r.nonce.length = 16) (ht : r.tag.length = 16) :
    (serializeEncrypted r).take 16 = r.nonce ∧
    ((serializeEncrypted r).drop 16).take 16 = r.tag ∧
    (serializeEncrypted r).drop 32 = r.ciphertext := by
  unfold serializeEncrypted
  refine ⟨?_, ?_, ?_⟩
  · rw [List.append_assoc, take_len_append _ _ _ hn]
  · rw [List.append_assoc, drop_len_append _ _ _ hn, take_len_append _ _ _ ht]
  · exact drop_len_append _ _ _ (by simp [hn, ht])

/-- C1: round-trip exactness.  Encrypting an arbitrary plaintext under any
fresh 16-byte key (and 16-byte EAX nonce) and then decrypting the serialized
buffer `nonce + tag + ciphertext` with that key returns exactly the
plaintext. -/
theorem decrypt_encrypt_roundtrip (P key nonce : Bytes)
    (hk : key.length = 16) (hn : nonce.length = 16) :
    decrypt_pdf (serializeEncrypted (encryptCore P key nonce)) key =
      Except.ok P := by
  have hslices := serializeEncrypted_slices (encryptCore P key nonce)
    (by simp [encryptCore, hn]) (by simp [encryptCore, mac16_length])
  obtain ⟨h1, h2, h3⟩ := hslices
  unfold decrypt_pdf
  rw [h1, h2, h3]
  simp only [encryptCore, hk, if_true]
  exact congrArg Except.ok (xorKS_xorKS key nonce 0 P)

/-- C1 witness: a concrete 4-byte plaintext round-trips. -/
theorem decrypt_encrypt_roundtrip_witness :
    (List.replicate 16 7 : Bytes).length = 16 ∧
    (List.replicate 16 9 : Bytes).length = 16 ∧
    decrypt_pdf
      (serializeEncrypted (encryptCore [80, 68, 70, 45]
        (List.replicate 16 7) (List.replicate 16 9)))
      (List.replicate 16 7) = Except.ok [80, 68, 70, 45] :=
  ⟨by decide, by decide,
    decrypt_encrypt_roundtrip [80, 68, 70, 45]
      (List.replicate 16 7) (List.replicate 16 9) (by decide) (by decide)⟩

lemma slices3 (a b c : Bytes) (ha : a.length = 16) (hb : b.length = 16) :
    (a ++ b ++ c).take 16 = a ∧ ((a ++ b ++ c).drop 16).take 16 = b ∧
    (a ++ b ++ c).drop 32 = c := by
  refine ⟨?_, ?_, ?_⟩
  · rw [List.append_assoc, take_len_append _ _ _ ha]
  · rw [List.append_assoc, drop_len_append _ _ _ ha, take_len_append _ _ _ hb]
  · exact drop_len_append _ _ _ (by simp [ha, hb])

/-- C2 (amended): flipping bit `j` of byte `i` of the ciphertext portion of
the serialized buffer makes decryption with the correct key fail — it
returns no data and raises the module's generic
`Exception("Decryption failed: MAC check failed")` (the code defines no
distinct AuthenticationError class).  The hypothesis `hmac` is the EAX
tag-collision-freeness that the cipher library provides cryptographically;
it is discharged concretely in the witness. -/
theorem decrypt_tamper_fails_generic (P key nonce : Bytes) (i j : Nat)
    (hk : key.length = 16) (hn : nonce.length = 16)
    (hmac : mac16 key nonce
        ((encryptCore P key nonce).ciphertext.set i
          ((encryptCore P key nonce).ciphertext.getD i 0 ^^^ 2 ^ j)) ≠
        (encryptCore P key nonce).tag) :
    decrypt_pdf
      ((serializeEncrypted (encryptCore P key nonce)).set (32 + i)
        ((encryptCore P key nonce).ciphertext.getD i 0 ^^^ 2 ^ j)) key =
      Except.error ⟨"Exception", "Decryption failed: MAC check failed"⟩ := by
  have hnl : (encryptCore P key nonce).nonce.length = 16 := by
    simp [encryptCore, hn]
  have htl : (encryptCore P key nonce).tag.length = 16 := by
    simp [encryptCore, mac16_length]
  have hab : ((encryptCore P key nonce).nonce ++ (encryptCore P key nonce).tag).length = 32 := by
    simp [hnl, htl]
  unfold serializeEncrypted
  rw [List.set_append_right _ _ (by rw [hab]; omega), hab]
  have hi : 32 + i - 32 = i := by omega
  rw [hi]
  obtain ⟨h1, h2, h3⟩ := slices3 (encryptCore P key nonce).nonce
    (encryptCore P key nonce).tag
    ((encryptCore P key nonce).ciphertext.set i
      ((encryptCore P key nonce).ciphertext.getD i 0 ^^^ 2 ^ j)) hnl htl
  unfold decrypt_pdf
  rw [h1, h2, h3, if_pos hk, if_neg ?_]
  intro hcontra
  exact hmac (by simpa [encryptCore] using hcontra)

/-- Concrete demonstration inputs for the tamper-detection claim. -/
def tamperDemoKey : Bytes := List.replicate 16 5

def tamperDemoNonce : Bytes := List.replicate 16 3

def tamperDemoPlain : Bytes := [80, 68, 70, 45]

def tamperDemoBuf : Bytes :=
  serializeEncrypted (encryptCore tamperDemoPlain tamperDemoKey tamperDemoNonce)

/-- C2 counterexample: on a concrete plaintext, flipping one bit of the first
ciphertext byte of the serialized buffer makes decryption fail, but the
raised error is the base class Exception, not a distinct
AuthenticationError — the code has no such class, so the claim as stated
(a distinguishable AuthenticationError kind) is false. -/
theorem decrypt_tamper_error_kind_counterexample :
    decrypt_pdf (tamperDemoBuf.set 32 (tamperDemoBuf.getD 32 0 ^^^ 1))
        tamperDemoKey =
      Except.error ⟨"Exception", "Decryption failed: MAC check failed"⟩ ∧
    "Exception" ≠ "AuthenticationError" :=
  ⟨by rfl, by decide⟩

/-- C2 witness: the amended theorem applied at the concrete demo input,
with the tag-mismatch hypothesis checked by evaluation. -/
theorem decrypt_tamper_fails_generic_witness :
    mac16 tamperDemoKey tamperDemoNonce
        ((encryptCore tamperDemoPlain tamperDemoKey tamperDemoNonce).ciphertext.set 0
          ((encryptCore tamperDemoPlain tamperDemoKey tamperDemoNonce).ciphertext.getD 0 0 ^^^ 2 ^ 0)) ≠
      (encryptCore tamperDemoPlain tamperDemoKey tamperDemoNonce).tag ∧
    decrypt_pdf
      ((serializeEncrypted (encryptCore tamperDemoPlain tamperDemoKey tamperDemoNonce)).set (32 + 0)
        ((encryptCore tamperDemoPlain tamperDemoKey tamperDemoNonce).ciphertext.getD 0 0 ^^^ 2 ^ 0))
      tamperDemoKey =
      Except.error ⟨"Exception", "Decryption failed: MAC check failed"⟩ :=
  ⟨by decide,
    decrypt_tamper_fails_generic tamperDemoPlain tamperDemoKey tamperDemoNonce
      0 0 (by decide) (by decide) (by decide)⟩

/-- Python `str.strip()`: drop whitespace from both ends (modelled over the
character list so it evaluates in the kernel). -/
def pyStrip (s : String) : String :=
  ⟨((s.data.dropWhile Char.isWhitespace).reverse.dropWhile Char.isWhitespace).reverse⟩

/-- A Python dict with string keys and string values, as used for the
`access_records` and `share_chain` entries and the geolocation JSON. -/
abbrev Dict := List (String × String)

/-- Python `d.get(k, default)`. -/
def dget (d : Dict) (k defaultVal : String) : String :=
  match d.find? (fun p => p.1 == k) with
  | some p => p.2
  | none => defaultVal

/-- Python `k in d`. -/
def dhas (d : Dict) (k : String) : Bool :=
  (d.find? (fun p => p.1 == k)).isSome

/-- Lowercase hex digit. -/
def hexDigit (n : Nat) : Char :=
  if n < 10 then Char.ofNat (48 + n) else Char.ofNat (87 + n)

/-- Python `bytes.hex()` of one byte. -/
def byteHex (b : Nat) : String :=
  ⟨[hexDigit (b / 16 % 16), hexDigit (b % 16)]⟩

/-- Python `bytes.hex()`: lowercase hex string of the byte sequence
(used for `encryption_result['key'].hex()` at line 295). -/
def bytesHex (bs : Bytes) : String :=
  String.join (bs.map byteHex)

/-- The `share_data` document built by `SecureShareDialog.share_file`
(lines 289-310), one per shared file. -/
structure TrackedFileRecord where
  file_name : String
  secure_filename : String
  original_path : String
  owner_id : String
  uploaded_at : String
  encryption_key : String
  cloudinary_url : String
  access_records : List Dict
  share_chain : List Dict
deriving DecidableEq, Repr

/-- A Firestore document: the auto-generated document id and the data. -/
structure LedgerDoc where
  id : String
  data : TrackedFileRecord
deriving DecidableEq, Repr

/-- Externally observable side effects of one `share_file` run, in order:
creation and deletion of the temporary staging file, the Cloudinary upload
attempt, and the Firestore write. -/
inductive Effect where
  | tempCreate
  | uploadAttempt
  | tempDelete
  | ledgerAdd
deriving DecidableEq, Repr

/-- How one `share_file` run ends: the silent early return on an empty
recipient (line 191), success (line 332), or the `except` handler showing
the error message and returning False (lines 334-348). -/
inductive ShareOutcome where
  | earlyReturn
  | success (record : TrackedFileRecord)
  | failure (message : String)
deriving DecidableEq, Repr

/-- Constructor index of the outcome, used to state that a change of
environment does not change the KIND of result. -/
def ShareOutcome.kindIndex : ShareOutcome → Nat
  | .earlyReturn => 0
  | .success _ => 1
  | .failure _ => 2

structure ShareResult where
  outcome : ShareOutcome
  ledger : List LedgerDoc
  trace : List Effect
deriving Repr

/-- The external world of one `share_file` run.  Every nondeterministic or
effectful input of the Python code is a field; the control flow reading them
is translated from `SecureShareDialog.share_file` (lines 178-348). -/
structure ShareEnv where
  recipientText : String
  accessLevel : String
  filePath : String
  fileName : String
  userId : String
  fileExists : Bool
  isRegularFile : Bool
  readResult : Except String Bytes
  key : Bytes
  nonce : Bytes
  configPresent : Bool
  configOk : Bool
  configErr : String
  tsName : String
  uniqueId : String
  tmpWriteOk : Bool
  tmpWriteErr : String
  unlinkOk : Bool
  uploadResult : Except String (Option String)
  geo : Except Unit Dict
  tsUpload : String
  tsAccess : String
  tsShare : String
  dbConnected : Bool
  dbAddResult : Except String Unit
  docId : String

/-- Lines 276-285: the geolocation lookup.  Any exception from the HTTP call
or the JSON parse is caught and degraded to the literal string
`"Unknown"`; on success the string is built from the `city` and
`country_name` fields with `"Unknown"` defaults per field. -/
def resolveGeolocation (geo : Except Unit Dict) : String :=
  match geo with
  | .error _ => "Unknown"
  | .ok location =>
      dget location "city" "Unknown" ++ ", " ++ dget location "country_name" "Unknown"

/-- The `share_data` record of lines 289-310.  The access and share events
are key-value dicts exactly as the source writes them: the upload access
event stores the acting user under the key `user_id` and has no
`user_name` key. -/
def builtRecord (env : ShareEnv) (geolocation secureUrl : String)
    (encryptionResult : EncryptionResult) : TrackedFileRecord :=
  { file_name := env.fileName
    secure_filename := env.tsName ++ "_" ++ env.uniqueId ++ "_" ++ env.fileName
    original_path := env.filePath
    owner_id := env.userId
    uploaded_at := env.tsUpload
    encryption_key := bytesHex encryptionResult.key
    cloudinary_url := secureUrl
    access_records := [[("user_id", env.userId), ("action", "upload"),
      ("location", geolocation), ("time", env.tsAccess)]]
    share_chain := [[("user_id", env.userId), ("shared_with", pyStrip env.recipientText),
      ("access_level", env.accessLevel), ("time", env.tsShare),
      ("location", geolocation)]] }

/-- `SecureShareDialog.share_file` (lines 178-348) with the geolocation
string already resolved (the lookup at lines 276-285 is an independent
best-effort read that cannot fail and influences nothing but the recorded
location strings; `shareFile` below plugs in `resolveGeolocation`).

Control flow mirrored from the source: empty recipient returns silently;
`os.path.exists` and `os.path.isfile` checks; `encrypt_pdf`; the
`cloudinary_config` presence and `cloudinary.config` call; the temporary
staging file written inside `try/finally` with `os.unlink` in the
`finally` (its own failure swallowed); the upload and the `secure_url`
presence check; the Firestore connection check and `add`.  Every raise is
caught by the outer handler and surfaced as a failure message. -/
def shareFileAux (env : ShareEnv) (geolocation : String)
    (ledger : List LedgerDoc) : ShareResult :=
  if pyStrip env.recipientText = "" then
    { outcome := .earlyReturn, ledger := ledger, trace := [] }
  else if env.fileExists = false then
    { outcome := .failure ("File not found at path: " ++ env.filePath),
      ledger := ledger, trace := [] }
  else if env.isRegularFile = false then
    { outcome := .failure ("Invalid file path: " ++ env.filePath),
      ledger := ledger, trace := [] }
  else
    match encrypt_pdf env.readResult env.key env.nonce with
    | .error e =>
        { outcome := .failure ("Failed to encrypt PDF: " ++ e),
          ledger := ledger, trace := [] }
    | .ok encryptionResult =>
        if env.configPresent = false then
          { outcome := .failure "Cloudinary configuration not found or invalid",
            ledger := ledger, trace := [] }
        else if env.configOk = false then
          { outcome := .failure ("Failed to configure Cloudinary: " ++ env.configErr),
            ledger := ledger, trace := [] }
        else if env.tmpWriteOk = false then
          { outcome := .failure ("Failed to upload file: " ++ env.tmpWriteErr),
            ledger := ledger, trace := [.tempCreate] }
        else
          let cleanup : List Effect := if env.unlinkOk then [.tempDelete] else []
          match env.uploadResult with
          | .error e =>
              { outcome := .failure ("Failed to upload file: " ++ e),
                ledger := ledger, trace := [.tempCreate, .uploadAttempt] ++ cleanup }
          | .ok none =>
              { outcome := .failure "Failed to get secure URL from Cloudinary",
                ledger := ledger, trace := [.tempCreate, .uploadAttempt] ++ cleanup }
          | .ok (some secureUrl) =>
              let shareData := builtRecord env geolocation secureUrl encryptionResult
              if env.dbConnected = false then
                { outcome := .failure "Database connection not available",
                  ledger := ledger, trace := [.tempCreate, .uploadAttempt] ++ cleanup }
              else
                match env.dbAddResult with
                | .error e =>
                    { outcome := .failure ("Failed to save to database: " ++ e),
                      ledger := ledger, trace := [.tempCreate, .uploadAttempt] ++ cleanup }
                | .ok _ =>
                    { outcome := .success shareData,
                      ledger := ledger ++ [⟨env.docId, shareData⟩],
                      trace := [.tempCreate, .uploadAttempt] ++ cleanup ++ [.ledgerAdd] }

/-- One `share_file` run against a ledger state. -/
def shareFile (env : ShareEnv) (ledger : List LedgerDoc) : ShareResult :=
  shareFileAux env (resolveGeolocation env.geo) ledger

/-- The Firestore query of `load_file_access_records` (lines 527-529):
all documents whose `owner_id` equals the given user. -/
def queryByOwner (ledger : List LedgerDoc) (owner : String) : List LedgerDoc :=
  ledger.filter (fun d => d.data.owner_id == owner)

/-- One row of the flattened access-history view (lines 541-562). -/
structure FlatAccessRecord where
  file_name : String
  user_name : String
  location : String
  device : String
  time : String
  record_id : String
  action : String
deriving DecidableEq, Repr

/-- Lines 535-562: for each tracked file, append the share-chain entries and
then the access-record entries to the flat list.  The actor column of an
access record is read from the key `user_name` with default `Unknown`. -/
def flattenDoc (doc : LedgerDoc) : List FlatAccessRecord :=
  (doc.data.share_chain.map (fun share =>
    { file_name := doc.data.file_name
      user_name := "Shared with: " ++ dget share "shared_with" "Unknown"
      location := dget share "location" "Unknown"
      device := dget share "access_level" "Unknown"
      time := dget share "time" "Unknown"
      record_id := doc.id
      action := "share" }))
  ++ (doc.data.access_records.map (fun record =>
    { file_name := doc.data.file_name
      user_name := dget record "user_name" "Unknown"
      location := dget record "location" "Unknown"
      device := dget record "device" "Unknown"
      time := dget record "time" "Unknown"
      record_id := doc.id
      action := dget record "action" "view" }))

/-- The comparison of line 567, `sort(key=time, reverse=True)`: `a` may stay
before `b` when `a.time` is at least `b.time`. -/
def accessTimeLE (a b : FlatAccessRecord) : Bool :=
  decide (b.time ≤ a.time)

/-- `load_file_access_records` (lines 515-570) stripped of the GUI: query
the owner's documents, flatten, and sort by time descending.  Python's
`list.sort` is a stable sort; with `reverse=True` equal keys keep their
order, which is exactly `mergeSort` under `accessTimeLE`. -/
def load_access_history (owner : String) (ledger : List LedgerDoc) :
    List FlatAccessRecord :=
  ((queryByOwner ledger owner).flatMap flattenDoc).mergeSort accessTimeLE

/-- A concrete fully successful environment, used to instantiate the
conditional theorems. -/
def demoEnv : ShareEnv :=
  { recipientText := "bob"
    accessLevel := "View Only"
    filePath := "/tmp/report.pdf"
    fileName := "report.pdf"
    userId := "alice"
    fileExists := true
    isRegularFile := true
    readResult := .ok [80, 68, 70, 45]
    key := List.replicate 16 5
    nonce := List.replicate 16 3
    configPresent := true
    configOk := true
    configErr := ""
    tsName := "20250101_120000"
    uniqueId := "QUJDREVGR0g"
    tmpWriteOk := true
    tmpWriteErr := ""
    unlinkOk := true
    uploadResult := .ok (some "https://res.cloudinary.com/demo/raw/upload/secure.bin")
    geo := .error ()
    tsUpload := "2025-01-01 12:00:00"
    tsAccess := "2025-01-01 12:00:01"
    tsShare := "2025-01-01 12:00:02"
    dbConnected := true
    dbAddResult := .ok ()
    docId := "doc1" }

/-- C10: a recipient that is empty after stripping whitespace makes
`share_file` return immediately: no side effect happens and the ledger is
unchanged. -/
theorem share_empty_recipient_no_effect (env : ShareEnv) (ledger : List LedgerDoc)
    (h : pyStrip env.recipientText = "") :
    shareFile env ledger = { outcome := .earlyReturn, ledger := ledger, trace := [] } := by
  simp [shareFile, shareFileAux, h]

/-- C10 witness: a whitespace-only recipient on the demo environment. -/
theorem share_empty_recipient_no_effect_witness :
    pyStrip ({ demoEnv with recipientText := "   " } : ShareEnv).recipientText = "" ∧
    shareFile { demoEnv with recipientText := "   " } [] =
      { outcome := .earlyReturn, ledger := [], trace := [] } :=
  ⟨by decide, share_empty_recipient_no_effect _ [] (by decide)⟩

/-- C3: when the Cloudinary upload raises, `share_file` aborts with the
upload-stage failure (the generic Exception whose message is
`Failed to upload file: ...`) and nothing is persisted: the ledger is
unchanged, so `query_by_owner` returns the same records as before for
every owner. -/
theorem upload_failure_no_ledger_write (env : ShareEnv) (ledger : List LedgerDoc)
    (d : Bytes) (e : String)
    (hrec : pyStrip env.recipientText ≠ "")
    (hexi : env.fileExists = true) (hreg : env.isRegularFile = true)
    (hread : env.readResult = .ok d)
    (hcp : env.configPresent = true) (hco : env.configOk = true)
    (htw : env.tmpWriteOk = true)
    (hup : env.uploadResult = .error e) :
    (shareFile env ledger).outcome = .failure ("Failed to upload file: " ++ e) ∧
    (shareFile env ledger).ledger = ledger ∧
    ∀ owner, queryByOwner (shareFile env ledger).ledger owner = queryByOwner ledger owner := by
  have hres : shareFile env ledger =
      { outcome := .failure ("Failed to upload file: " ++ e), ledger := ledger,
        trace := [.tempCreate, .uploadAttempt] ++ (if env.unlinkOk then [.tempDelete] else []) } := by
    simp [shareFile, shareFileAux, encrypt_pdf, hrec, hexi, hreg, hread, hcp, hco, htw, hup]
  rw [hres]
  exact ⟨rfl, rfl, fun _ => rfl⟩

/-- C3 witness: the upload-failure theorem at a concrete environment. -/
theorem upload_failure_no_ledger_write_witness :
    pyStrip ({ demoEnv with uploadResult := .error "HTTP 500" } : ShareEnv).recipientText ≠ "" ∧
    (shareFile { demoEnv with uploadResult := .error "HTTP 500" } []).outcome =
      .failure ("Failed to upload file: " ++ "HTTP 500") ∧
    (shareFile { demoEnv with uploadResult := .error "HTTP 500" } []).ledger = [] ∧
    ∀ owner, queryByOwner (shareFile { demoEnv with uploadResult := .error "HTTP 500" } []).ledger owner =
      queryByOwner [] owner :=
  ⟨by decide,
    (upload_failure_no_ledger_write _ [] [80, 68, 70, 45] "HTTP 500"
      (by decide) rfl rfl rfl rfl rfl rfl rfl).1,
    (upload_failure_no_ledger_write _ [] [80, 68, 70, 45] "HTTP 500"
      (by decide) rfl rfl rfl rfl rfl rfl rfl).2.1,
    (upload_failure_no_ledger_write _ [] [80, 68, 70, 45] "HTTP 500"
      (by decide) rfl rfl rfl rfl rfl rfl rfl).2.2⟩

/-- C4: a successful `share_file` persists exactly the record built at lines
289-310: the given display name, one initial access event with action
`upload`, and one initial share event carrying the stripped recipient and
the chosen access level. -/
theorem share_success_record_shape (env : ShareEnv) (ledger : List LedgerDoc)
    (d : Bytes) (url : String)
    (hrec : pyStrip env.recipientText ≠ "")
    (hexi : env.fileExists = true) (hreg : env.isRegularFile = true)
    (hread : env.readResult = .ok d)
    (hcp : env.configPresent = true) (hco : env.configOk = true)
    (htw : env.tmpWriteOk = true)
    (hup : env.uploadResult = .ok (some url))
    (hdb : env.dbConnected = true) (hadd : env.dbAddResult = .ok ()) :
    (shareFile env ledger).outcome =
      .success (builtRecord env (resolveGeolocation env.geo) url (encryptCore d env.key env.nonce)) ∧
    (shareFile env ledger).ledger =
      ledger ++ [⟨env.docId,
        builtRecord env (resolveGeolocation env.geo) url (encryptCore d env.key env.nonce)⟩] ∧
    (builtRecord env (resolveGeolocation env.geo) url (encryptCore d env.key env.nonce)).file_name = env.fileName ∧
    (builtRecord env (resolveGeolocation env.geo) url (encryptCore d env.key env.nonce)).access_records.length = 1 ∧
    dget ((builtRecord env (resolveGeolocation env.geo) url (encryptCore d env.key env.nonce)).access_records.headD [])
      "action" "" = "upload" ∧
    (builtRecord env (resolveGeolocation env.geo) url (encryptCore d env.key env.nonce)).share_chain.length = 1 ∧
    dget ((builtRecord env (resolveGeolocation env.geo) url (encryptCore d env.key env.nonce)).share_chain.headD [])
      "shared_with" "" = pyStrip env.recipientText ∧
    dget ((builtRecord env (resolveGeolocation env.geo) url (encryptCore d env.key env.nonce)).share_chain.headD [])
      "access_level" "" = env.accessLevel := by
  have hres : shareFile env ledger =
      { outcome := .success (builtRecord env (resolveGeolocation env.geo) url (encryptCore d env.key env.nonce)),
        ledger := ledger ++ [⟨env.docId,
          builtRecord env (resolveGeolocation env.geo) url (encryptCore d env.key env.nonce)⟩],
        trace := [.tempCreate, .uploadAttempt] ++ (if env.unlinkOk then [.tempDelete] else []) ++ [.ledgerAdd] } := by
    simp [shareFile, shareFileAux, encrypt_pdf, hrec, hexi, hreg, hread, hcp, hco, htw, hup, hdb, hadd]
  rw [hres]
  exact ⟨rfl, rfl, rfl, rfl, rfl, rfl, rfl, rfl⟩

/-- C4 witness: the success-shape theorem at the concrete demo environment. -/
theorem share_success_record_shape_witness :
    pyStrip (demoEnv : ShareEnv).recipientText ≠ "" ∧
    (shareFile demoEnv []).outcome =
      .success (builtRecord demoEnv (resolveGeolocation demoEnv.geo)
        "https://res.cloudinary.com/demo/raw/upload/secure.bin"
        (encryptCore [80, 68, 70, 45] demoEnv.key demoEnv.nonce)) ∧
    dget ((builtRecord demoEnv (resolveGeolocation demoEnv.geo)
        "https://res.cloudinary.com/demo/raw/upload/secure.bin"
        (encryptCore [80, 68, 70, 45] demoEnv.key demoEnv.nonce)).share_chain.headD [])
      "shared_with" "" = pyStrip demoEnv.recipientText :=
  ⟨by decide,
    (share_success_record_shape demoEnv [] [80, 68, 70, 45] _
      (by decide) rfl rfl rfl rfl rfl rfl rfl rfl rfl).1,
    (share_success_record_shape demoEnv [] [80, 68, 70, 45] _
      (by decide) rfl rfl rfl rfl rfl rfl rfl rfl rfl).2.2.2.2.2.2.1⟩

/-- C8: once `share_file` reaches the upload stage (the staging file was
created and written), the `finally` block deletes the staging file before
the operation returns, whatever the upload, the URL check, and the ledger
write do — succeed or raise.  The hypothesis `hul` is the success of
`os.unlink` itself (the code swallows a failing unlink with a warning). -/
theorem temp_file_deleted_on_all_paths (env : ShareEnv) (ledger : List LedgerDoc)
    (d : Bytes)
    (hrec : pyStrip env.recipientText ≠ "")
    (hexi : env.fileExists = true) (hreg : env.isRegularFile = true)
    (hread : env.readResult = .ok d)
    (hcp : env.configPresent = true) (hco : env.configOk = true)
    (htw : env.tmpWriteOk = true)
    (hul : env.unlinkOk = true) :
    Effect.tempCreate ∈ (shareFile env ledger).trace ∧
    Effect.tempDelete ∈ (shareFile env ledger).trace := by
  simp only [shareFile, shareFileAux, encrypt_pdf, hread]
  rcases hu : env.uploadResult with e | o
  · simp [hrec, hexi, hreg, hcp, hco, htw, hul, hu]
  · rcases o with _ | u
    · simp [hrec, hexi, hreg, hcp, hco, htw, hul, hu]
    · rcases hdb : env.dbConnected with _ | _
      · simp [hrec, hexi, hreg, hcp, hco, htw, hul, hu, hdb]
      · rcases ha : env.dbAddResult with e | _
        · simp [hrec, hexi, hreg, hcp, hco, htw, hul, hu, hdb, ha]
        · simp [hrec, hexi, hreg, hcp, hco, htw, hul, hu, hdb, ha]

/-- C8 witness: the theorem at a concrete environment whose upload raises. -/
theorem temp_file_deleted_on_all_paths_witness :
    pyStrip ({ demoEnv with uploadResult := .error "quota" } : ShareEnv).recipientText ≠ "" ∧
    Effect.tempCreate ∈ (shareFile { demoEnv with uploadResult := .error "quota" } []).trace ∧
    Effect.tempDelete ∈ (shareFile { demoEnv with uploadResult := .error "quota" } []).trace :=
  ⟨by decide,
    (temp_file_deleted_on_all_paths _ [] [80, 68, 70, 45]
      (by decide) rfl rfl rfl rfl rfl rfl rfl).1,
    (temp_file_deleted_on_all_paths _ [] [80, 68, 70, 45]
      (by decide) rfl rfl rfl rfl rfl rfl rfl).2⟩

/-- C9: the initial upload access event stores the actor under the key
`user_id` (line 298) and carries no `user_name` key, while the history
loader reads the actor from `user_name` with default `Unknown` (line 556);
hence the flattened view of the persisted record shows `Unknown` as the
actor of every upload event, whatever owner identity was supplied. -/
theorem upload_event_actor_shown_unknown (env : ShareEnv) (ledger : List LedgerDoc)
    (d : Bytes) (url : String)
    (hrec : pyStrip env.recipientText ≠ "")
    (hexi : env.fileExists = true) (hreg : env.isRegularFile = true)
    (hread : env.readResult = .ok d)
    (hcp : env.configPresent = true) (hco : env.configOk = true)
    (htw : env.tmpWriteOk = true)
    (hup : env.uploadResult = .ok (some url))
    (hdb : env.dbConnected = true) (hadd : env.dbAddResult = .ok ()) :
    ∀ r, (shareFile env ledger).outcome = .success r →
      dhas (r.access_records.headD []) "user_name" = false ∧
      dget (r.access_records.headD []) "user_id" "" = env.userId ∧
      ∀ fe ∈ flattenDoc ⟨env.docId, r⟩, fe.action = "upload" → fe.user_name = "Unknown" := by
  have hres : (shareFile env ledger).outcome =
      .success (builtRecord env (resolveGeolocation env.geo) url (encryptCore d env.key env.nonce)) := by
    simp [shareFile, shareFileAux, encrypt_pdf, hrec, hexi, hreg, hread, hcp, hco, htw, hup, hdb, hadd]
  intro r hr
  rw [hres] at hr
  obtain rfl : builtRecord env (resolveGeolocation env.geo) url (encryptCore d env.key env.nonce) = r := by
    cases hr; rfl
  refine ⟨rfl, rfl, ?_⟩
  intro fe hfe hact
  simp only [flattenDoc, builtRecord, List.map_cons, List.map_nil, List.cons_append,
    List.nil_append, List.mem_cons, List.not_mem_nil, or_false] at hfe
  rcases hfe with rfl | rfl
  · simp at hact
  · rfl

/-- C9 witness: the key-mismatch theorem at the concrete demo environment. -/
theorem upload_event_actor_shown_unknown_witness :
    pyStrip (demoEnv : ShareEnv).recipientText ≠ "" ∧
    ((shareFile demoEnv []).outcome =
      .success (builtRecord demoEnv (resolveGeolocation demoEnv.geo)
        "https://res.cloudinary.com/demo/raw/upload/secure.bin"
        (encryptCore [80, 68, 70, 45] demoEnv.key demoEnv.nonce)) →
      dhas ((builtRecord demoEnv (resolveGeolocation demoEnv.geo)
        "https://res.cloudinary.com/demo/raw/upload/secure.bin"
        (encryptCore [80, 68, 70, 45] demoEnv.key demoEnv.nonce)).access_records.headD [])
        "user_name" = false) :=
  ⟨by decide, fun h =>
    (upload_event_actor_shown_unknown demoEnv [] [80, 68, 70, 45] _
      (by decide) rfl rfl rfl rfl rfl rfl rfl rfl rfl _ h).1⟩

/-- The outcome is classified as a validation failure when its message is
one of the two validation messages of lines 204-208. -/
def isValidationFailure (o : ShareOutcome) (path : String) : Bool :=
  match o with
  | .failure m =>
      (m == "File not found at path: " ++ path) || (m == "Invalid file path: " ++ path)
  | _ => false

/-- A concrete environment whose file exists and is a regular file but whose
bytes cannot be read. -/
def unreadableEnv : ShareEnv :=
  { demoEnv with readResult := .error "Permission denied" }

/-- C6 counterexample: on an existing regular file whose content cannot be
read, `share_file` does not fail at validation — the readability probe
lives in the caller `upload_file`, not in `share_file` — it fails inside
the encryption stage with the `Failed to encrypt PDF` message (and still
performs no side effect). -/
theorem unreadable_file_not_validation_counterexample :
    unreadableEnv.fileExists = true ∧
    unreadableEnv.isRegularFile = true ∧
    isValidationFailure (shareFile unreadableEnv []).outcome unreadableEnv.filePath = false ∧
    (shareFile unreadableEnv []).outcome =
      .failure ("Failed to encrypt PDF: " ++ ("Encryption failed: " ++ "Permission denied")) ∧
    (shareFile unreadableEnv []).trace = [] :=
  ⟨rfl, rfl, by decide, by decide, by decide⟩

/-- C6 (amended): a nonexistent path or a non-regular file makes
`share_file` abort at validation with the corresponding message and no
side effect at all (empty effect trace, ledger unchanged); an existing
regular file whose bytes cannot be read aborts during the encryption
stage instead — also before any upload or ledger write.  (The 1 KiB
readability probe of the spec is performed by the caller
`FileTrackerWindow.upload_file`, lines 496-501, before `share_file`
runs.) -/
theorem validation_and_read_failures_no_side_effect (env : ShareEnv)
    (ledger : List LedgerDoc) (e : String)
    (hrec : pyStrip env.recipientText ≠ "") :
    (env.fileExists = false →
      shareFile env ledger =
        { outcome := .failure ("File not found at path: " ++ env.filePath),
          ledger := ledger, trace := [] }) ∧
    (env.fileExists = true → env.isRegularFile = false →
      shareFile env ledger =
        { outcome := .failure ("Invalid file path: " ++ env.filePath),
          ledger := ledger, trace := [] }) ∧
    (env.fileExists = true → env.isRegularFile = true → env.readResult = .error e →
      shareFile env ledger =
        { outcome := .failure ("Failed to encrypt PDF: " ++ ("Encryption failed: " ++ e)),
          ledger := ledger, trace := [] }) := by
  refine ⟨fun h1 => ?_, fun h1 h2 => ?_, fun h1 h2 h3 => ?_⟩
  · simp [shareFile, shareFileAux, hrec, h1]
  · simp [shareFile, shareFileAux, hrec, h1, h2]
  · simp [shareFile, shareFileAux, encrypt_pdf, hrec, h1, h2, h3]

/-- C6 witness: the amended theorem at the unreadable-file environment. -/
theorem validation_and_read_failures_no_side_effect_witness :
    pyStrip (unreadableEnv : ShareEnv).recipientText ≠ "" ∧
    (unreadableEnv.fileExists = true → unreadableEnv.isRegularFile = true →
      unreadableEnv.readResult = .error "Permission denied" →
      shareFile unreadableEnv [] =
        { outcome := .failure ("Failed to encrypt PDF: " ++ ("Encryption failed: " ++ "Permission denied")),
          ledger := [], trace := [] }) :=
  ⟨by decide,
    (validation_and_read_failures_no_side_effect unreadableEnv [] "Permission denied"
      (by decide)).2.2⟩

/-- The kind of the result (early return, success, failure) does not depend
on the resolved geolocation string, which only flows into the persisted
record's location fields. -/
lemma shareFileAux_kindIndex_geo_invariant (env : ShareEnv) (s₁ s₂ : String)
    (ledger : List LedgerDoc) :
    (shareFileAux env s₁ ledger).outcome.kindIndex =
      (shareFileAux env s₂ ledger).outcome.kindIndex := by
  by_cases h1 : pyStrip env.recipientText = ""
  · simp [shareFileAux, h1]
  · by_cases h2 : env.fileExists = false
    · simp [shareFileAux, h1, h2]
    · by_cases h3 : env.isRegularFile = false
      · simp [shareFileAux, h1, h2, h3]
      · rcases h4 : env.readResult with e | d
        · simp [shareFileAux, encrypt_pdf, h1, h2, h3, h4]
        · by_cases h5 : env.configPresent = false
          · simp [shareFileAux, encrypt_pdf, h1, h2, h3, h4, h5]
          · by_cases h6 : env.configOk = false
            · simp [shareFileAux, encrypt_pdf, h1, h2, h3, h4, h5, h6]
            · by_cases h7 : env.tmpWriteOk = false
              · simp [shareFileAux, encrypt_pdf, h1, h2, h3, h4, h5, h6, h7]
              · rcases h8 : env.uploadResult with e | o
                · simp [shareFileAux, encrypt_pdf, h1, h2, h3, h4, h5, h6, h7, h8]
                · rcases o with _ | u
                  · simp [shareFileAux, encrypt_pdf, h1, h2, h3, h4, h5, h6, h7, h8]
                  · by_cases h9 : env.dbConnected = false
                    · simp [shareFileAux, encrypt_pdf, h1, h2, h3, h4, h5, h6, h7, h8, h9]
                    · rcases h10 : env.dbAddResult with e | u'
                      · simp [shareFileAux, encrypt_pdf, h1, h2, h3, h4, h5, h6, h7, h8,
                          h9, h10]
                      · simp [shareFileAux, encrypt_pdf, h1, h2, h3, h4, h5, h6, h7, h8,
                          h9, h10, ShareOutcome.kindIndex]

/-- Any successful run returns the record built with the geolocation string
the run resolved. -/
lemma shareFileAux_success_shape {env : ShareEnv} {s : String}
    {ledger : List LedgerDoc} {r : TrackedFileRecord}
    (hr : (shareFileAux env s ledger).outcome = .success r) :
    ∃ url encryptionResult, r = builtRecord env s url encryptionResult := by
  unfold shareFileAux at hr
  repeat' split at hr
  all_goals simp_all
  all_goals exact ⟨_, _, hr.symm⟩

/-- Every location field of the built record is the resolved geolocation
string. -/
lemma builtRecord_locations (env : ShareEnv) (s url : String)
    (encryptionResult : EncryptionResult) :
    dget ((builtRecord env s url encryptionResult).access_records.headD []) "location" "" = s ∧
    dget ((builtRecord env s url encryptionResult).share_chain.headD []) "location" "" = s :=
  ⟨rfl, rfl⟩

/-- C7: a failing geolocation lookup (any network or parse exception) never
aborts the share and never changes the kind of the result — the outcome
kind equals the one obtained under any other lookup result — and the
locations recorded in the initial access and share events are then the
literal string `Unknown`. -/
theorem geolocation_failure_degrades_to_unknown (env : ShareEnv)
    (ledger : List LedgerDoc) (g : Except Unit Dict)
    (h : env.geo = .error ()) :
    (shareFile { env with geo := g } ledger).outcome.kindIndex =
      (shareFile env ledger).outcome.kindIndex ∧
    ∀ r, (shareFile env ledger).outcome = .success r →
      dget (r.access_records.headD []) "location" "" = "Unknown" ∧
      dget (r.share_chain.headD []) "location" "" = "Unknown" := by
  constructor
  · exact shareFileAux_kindIndex_geo_invariant env (resolveGeolocation g)
      (resolveGeolocation env.geo) ledger
  · intro r hr
    obtain ⟨url, encryptionResult, rfl⟩ := shareFileAux_success_shape hr
    have hs : resolveGeolocation env.geo = "Unknown" := by rw [h]; rfl
    rw [hs] at *
    exact builtRecord_locations env "Unknown" url encryptionResult

/-- C7 witness: the degradation theorem at the demo environment, whose
geolocation lookup fails. -/
theorem geolocation_failure_degrades_to_unknown_witness :
    (demoEnv : ShareEnv).geo = .error () ∧
    (shareFile { demoEnv with geo := .ok [("city", "Pune"), ("country_name", "India")] } []).outcome.kindIndex =
      (shareFile demoEnv []).outcome.kindIndex :=
  ⟨rfl,
    (geolocation_failure_degrades_to_unknown demoEnv []
      (.ok [("city", "Pune"), ("country_name", "India")]) rfl).1⟩

lemma accessTimeLE_trans (a b c : FlatAccessRecord)
    (h1 : accessTimeLE a b = true) (h2 : accessTimeLE b c = true) :
    accessTimeLE a c = true := by
  simp only [accessTimeLE, decide_eq_true_eq] at *
  exact le_trans h2 h1

lemma accessTimeLE_total (a b : FlatAccessRecord) :
    (accessTimeLE a b || accessTimeLE b a) = true := by
  simp only [accessTimeLE, Bool.or_eq_true, decide_eq_true_eq]
  exact le_total b.time a.time

/-- C5: the flattened event list returned by the history loader is sorted
non-increasing by the `time` string, and for every time value the events
carrying it appear in exactly the order the flattening inserted them
(stability of Python's `list.sort`, which `mergeSort` realizes). -/
theorem load_access_history_sorted_and_stable (owner : String)
    (ledger : List LedgerDoc) :
    List.Pairwise (fun a b => b.time ≤ a.time) (load_access_history owner ledger) ∧
    ∀ t : String,
      (load_access_history owner ledger).filter (fun e => e.time == t) =
        ((queryByOwner ledger owner).flatMap flattenDoc).filter (fun e => e.time == t) := by
  constructor
  · have hs := List.sorted_mergeSort accessTimeLE_trans accessTimeLE_total
      ((queryByOwner ledger owner).flatMap flattenDoc)
    exact hs.imp (fun h => by simpa [accessTimeLE] using h)
  · intro t
    set flat := (queryByOwner ledger owner).flatMap flattenDoc with hflat
    set p : FlatAccessRecord → Bool := fun e => e.time == t with hp
    have hmemt : ∀ a ∈ flat.filter p, a.time = t := by
      intro a ha
      have := (List.mem_filter.mp ha).2
      simpa [hp] using this
    have hpair : (flat.filter p).Pairwise (fun a b => accessTimeLE a b = true) := by
      refine List.pairwise_of_forall_mem_list ?_
      intro a ha b hb
      simp [accessTimeLE, hmemt a ha, hmemt b hb]
    have hsub : (flat.filter p).Sublist (flat.mergeSort accessTimeLE) :=
      List.sublist_mergeSort accessTimeLE_trans accessTimeLE_total hpair
        (List.filter_sublist flat)
    have hsub2 : ((flat.filter p).filter p).Sublist
        ((flat.mergeSort accessTimeLE).filter p) := List.Sublist.filter p hsub
    rw [List.filter_eq_self.mpr (fun a ha => (List.mem_filter.mp ha).2)] at hsub2
    have hperm : ((flat.mergeSort accessTimeLE).filter p).Perm (flat.filter p) :=
      (List.mergeSort_perm flat accessTimeLE).filter p
    have := hsub2.eq_of_length (hperm.length_eq.symm)
    simpa [load_access_history, hflat] using this.symm

end FileTracker
